import Mathlib

/-!
Verification of the fintrack-fastapi budget/metrics aggregation layer.

Shallow embedding conventions:
* Python floats are modeled as exact rationals (`ℚ`); `round(x, n)` and the
  `:.1f` / `:.2f` / `:.0f` format specifiers are modeled by exact decimal
  rounding with the half-even tie rule Python's `round`/`format` use
  (binary-float representation artifacts and `-0.0` displays are outside the
  model).
* Python `datetime.date` values are a calendar `PDate` structure; date
  subtraction (`(a - b).days`) and comparisons go through the proleptic
  Gregorian ordinal `PDate.ord`, mirroring `date.toordinal`.
* SQL aggregate queries (`select(func.sum(...)).where(...)`) are folds over
  in-memory lists of row structures; `SUM` over no rows is `NULL`, modeled as
  `Option.none`, and the services' `scalar() or 0.0` is `orZero`.
-/

namespace FinTrack

/-- Gregorian leap year, as Python's `calendar`/`datetime` define it. -/
def isLeap (y : ℤ) : Bool := (y % 4 = 0 ∧ y % 100 ≠ 0) ∨ y % 400 = 0

/-- Length of month `m` of year `y` (1 = January). -/
def daysInMonth (y : ℤ) (m : ℕ) : ℕ :=
  if m = 2 then (if isLeap y then 29 else 28)
  else if m = 4 ∨ m = 6 ∨ m = 9 ∨ m = 11 then 30
  else 31

/-- Days in year `y` strictly before month `m` (cumulative month table). -/
def daysBeforeMonth (y : ℤ) (m : ℕ) : ℕ :=
  (if m ≤ 1 then 0 else if m = 2 then 31 else if m = 3 then 59
   else if m = 4 then 90 else if m = 5 then 120 else if m = 6 then 151
   else if m = 7 then 181 else if m = 8 then 212 else if m = 9 then 243
   else if m = 10 then 273 else if m = 11 then 304 else 334)
  + (if 3 ≤ m ∧ isLeap y then 1 else 0)

/-- A calendar date (`datetime.date`): year, month (1-12), day (1-based). -/
structure PDate where
  y : ℤ
  m : ℕ
  d : ℕ
deriving DecidableEq

/-- Proleptic Gregorian ordinal of a date, as `date.toordinal`:
day 1 is January 1 of year 1.  Differences of ordinals model
`(a - b).days`. -/
def PDate.ord (dt : PDate) : ℤ :=
  365 * (dt.y - 1) + (dt.y - 1) / 4 - (dt.y - 1) / 100 + (dt.y - 1) / 400
    + (daysBeforeMonth dt.y dt.m : ℤ) + (dt.d : ℤ)

/-- Python `date - timedelta(days=1)`. -/
def prevDay (dt : PDate) : PDate :=
  if 1 < dt.d then ⟨dt.y, dt.m, dt.d - 1⟩
  else if 1 < dt.m then ⟨dt.y, dt.m - 1, daysInMonth dt.y (dt.m - 1)⟩
  else ⟨dt.y - 1, 12, 31⟩

/-- Round a rational to an integer with Python's half-even tie rule
(`round(x)` / format rounding). -/
def rhe (x : ℚ) : ℤ :=
  if x - ⌊x⌋ = 1 / 2 then (if 2 ∣ ⌊x⌋ then ⌊x⌋ else ⌊x⌋ + 1) else round x

/-- Python `round(x, 2)`. -/
def round2 (q : ℚ) : ℚ := (rhe (q * 100) : ℚ) / 100

/-- Two-digit zero-padded rendering of a natural number below 100. -/
def natPad2 (n : ℕ) : String := if n < 10 then "0" ++ toString n else toString n

/-- Python `f"{q:.1f}"`. -/
def fmt1 (q : ℚ) : String :=
  let n := rhe (q * 10)
  (if n < 0 then "-" else "") ++ toString (n.natAbs / 10) ++ "." ++ toString (n.natAbs % 10)

/-- Python `f"{q:.2f}"`. -/
def fmt2 (q : ℚ) : String :=
  let n := rhe (q * 100)
  (if n < 0 then "-" else "") ++ toString (n.natAbs / 100) ++ "." ++ natPad2 (n.natAbs % 100)

/-- Python `f"{q:.0f}"`. -/
def fmt0 (q : ℚ) : String := toString (rhe q)

/-- SQL `SUM` aggregate: `NULL` (`none`) over an empty row set. -/
def sqlSum (l : List ℚ) : Option ℚ := if l.isEmpty then none else some l.sum

/-- The services' `result.scalar() or 0.0` idiom. -/
def orZero (o : Option ℚ) : ℚ := o.getD 0

/-! ## Rounding lemmas -/

theorem rhe_le_ceil (x : ℚ) : rhe x ≤ ⌈x⌉ := by
  unfold rhe
  split_ifs with h h2
  · exact Int.floor_le_ceil x
  · have hx : x = (⌊x⌋ : ℚ) + 1 / 2 := by linarith
    have h1 : (⌊x⌋ : ℚ) + 1 / 2 ≤ (⌈x⌉ : ℚ) := by rw [← hx]; exact Int.le_ceil x
    have h2 : (⌊x⌋ : ℚ) < (⌈x⌉ : ℚ) := by linarith
    have h3 : ⌊x⌋ < ⌈x⌉ := by exact_mod_cast h2
    omega
  · rw [round_eq]
    by_contra hc
    push_neg at hc
    have h1 : ((⌈x⌉ + 1 : ℤ) : ℚ) ≤ x + 1 / 2 := Int.le_floor.mp (by omega)
    have h2 : x ≤ (⌈x⌉ : ℚ) := Int.le_ceil x
    push_cast at h1
    linarith

theorem floor_le_rhe (x : ℚ) : ⌊x⌋ ≤ rhe x := by
  unfold rhe
  split_ifs with h h2
  · exact le_refl _
  · omega
  · rw [round_eq]
    apply Int.floor_le_floor
    linarith

theorem round2_nonneg {q : ℚ} (h : 0 ≤ q) : 0 ≤ round2 q := by
  unfold round2
  have h1 : (0 : ℤ) ≤ ⌊q * 100⌋ := by positivity
  have h2 : (0 : ℤ) ≤ rhe (q * 100) := h1.trans (floor_le_rhe _)
  have h3 : (0 : ℚ) ≤ (rhe (q * 100) : ℚ) := by exact_mod_cast h2
  positivity

theorem round2_nonpos {q : ℚ} (h : q ≤ 0) : round2 q ≤ 0 := by
  unfold round2
  have h1 : ⌈q * 100⌉ ≤ 0 := Int.ceil_le.mpr (by push_cast; nlinarith)
  have h2 : rhe (q * 100) ≤ 0 := (rhe_le_ceil _).trans h1
  have h3 : (rhe (q * 100) : ℚ) ≤ 0 := by exact_mod_cast h2
  have : (0 : ℚ) < 100 := by norm_num
  exact div_nonpos_of_nonpos_of_nonneg h3 (by norm_num)

theorem rhe_zero : rhe 0 = 0 := by
  unfold rhe
  norm_num

theorem round2_zero : round2 0 = 0 := by
  unfold round2
  rw [show ((0 : ℚ) * 100) = 0 by norm_num, rhe_zero]
  norm_num

/-- Rounding at the two-decimal boundary commutes with the `max _ 0` clamp. -/
theorem round2_max_zero (q : ℚ) : round2 (max q 0) = max (round2 q) 0 := by
  rcases le_total q 0 with h | h
  · rw [max_eq_right h, round2_zero, max_eq_right (round2_nonpos h)]
  · rw [max_eq_left h, max_eq_left (round2_nonneg h)]

/-!
## `get_budget_performance` pace metrics
(`app/services/budget_metrics_service.py`, lines 256-280)

The per-budget metrics block computes
`days_total = (end_date - start_date).days + 1`,
`days_elapsed = (today - start_date).days + 1`,
`days_remaining = (end_date - today).days`, and
`expected_spending = days_elapsed / days_total * budget.amount if days_total > 0 else 0`.
No clamping of `days_elapsed` appears in the source.
-/

/-- A `budgets` table row (`app/models/budget.py`).  `amount` is a `Float`
column and `alert_threshold` an `Integer` column; both are modeled in `ℚ`
since they only ever meet float arithmetic. -/
structure Budget where
  id : ℤ
  user_id : ℤ
  category_id : ℤ
  name : String
  amount : ℚ
  start_date : PDate
  end_date : PDate
  alert_threshold : ℚ
deriving DecidableEq

def days_total (b : Budget) : ℤ := (b.end_date.ord - b.start_date.ord) + 1

def days_elapsed (today : PDate) (b : Budget) : ℤ := (today.ord - b.start_date.ord) + 1

def days_remaining (today : PDate) (b : Budget) : ℤ := b.end_date.ord - today.ord

def expected_spending (today : PDate) (b : Budget) : ℚ :=
  if 0 < days_total b then ((days_elapsed today b : ℚ) / (days_total b : ℚ)) * b.amount
  else 0

/-- Sample budget used to evaluate the pace metrics at concrete dates. -/
def paceBudget : Budget :=
  ⟨1, 1, 1, "Comida", 100, ⟨2026, 3, 1⟩, ⟨2026, 3, 10⟩, 80⟩

/-- C4 counterexample: with a budget window 2026-03-01 .. 2026-03-10
(`days_total = 10`) and `today = 2026-03-20`, the code's `days_elapsed`
is 20, outside `[0, days_total]`, and `expected_spending` is 200, twice
the budget amount — the claimed clamping does not exist in
`get_budget_performance`. -/
theorem days_elapsed_unclamped_counterexample :
    days_total paceBudget = 10 ∧
    days_elapsed ⟨2026, 3, 20⟩ paceBudget = 20 ∧
    ¬ days_elapsed ⟨2026, 3, 20⟩ paceBudget ≤ days_total paceBudget ∧
    expected_spending ⟨2026, 3, 20⟩ paceBudget = 200 ∧
    ¬ expected_spending ⟨2026, 3, 20⟩ paceBudget ≤ paceBudget.amount := by
  refine ⟨by decide, by decide, by decide, ?_, ?_⟩
  · norm_num [expected_spending, days_elapsed, days_total, paceBudget, PDate.ord,
      daysBeforeMonth, isLeap]
  · norm_num [expected_spending, days_elapsed, days_total, paceBudget, PDate.ord,
      daysBeforeMonth, isLeap]

/-- C4 amended: `days_elapsed = (today - start_date).days + 1` with no
clamping; only when `today` lies inside `[start_date, end_date]` (and the
budget amount is nonnegative) are `days_elapsed ∈ [0, days_total]` and
`expected_spending ∈ [0, budget.amount]` guaranteed. -/
theorem days_elapsed_bounds_inside_window (today : PDate) (b : Budget)
    (h1 : b.start_date.ord ≤ today.ord) (h2 : today.ord ≤ b.end_date.ord)
    (h3 : 0 ≤ b.amount) :
    0 ≤ days_elapsed today b ∧ days_elapsed today b ≤ days_total b ∧
    0 ≤ expected_spending today b ∧ expected_spending today b ≤ b.amount := by
  have hde : 0 ≤ days_elapsed today b := by unfold days_elapsed; omega
  have hdt : days_elapsed today b ≤ days_total b := by
    unfold days_elapsed days_total; omega
  have hpos : 0 < days_total b := by unfold days_total; omega
  refine ⟨hde, hdt, ?_, ?_⟩
  · unfold expected_spending
    rw [if_pos hpos]
    have c1 : (0 : ℚ) ≤ (days_elapsed today b : ℚ) := by exact_mod_cast hde
    have c2 : (0 : ℚ) < (days_total b : ℚ) := by exact_mod_cast hpos
    positivity
  · unfold expected_spending
    rw [if_pos hpos]
    have c1 : (0 : ℚ) ≤ (days_elapsed today b : ℚ) := by exact_mod_cast hde
    have c2 : (0 : ℚ) < (days_total b : ℚ) := by exact_mod_cast hpos
    have c3 : (days_elapsed today b : ℚ) ≤ (days_total b : ℚ) := by exact_mod_cast hdt
    have hdiv : (days_elapsed today b : ℚ) / (days_total b : ℚ) ≤ 1 :=
      (div_le_one c2).mpr c3
    calc (days_elapsed today b : ℚ) / (days_total b : ℚ) * b.amount
        ≤ 1 * b.amount := by
          apply mul_le_mul_of_nonneg_right hdiv h3
      _ = b.amount := one_mul _

/-- C4 witness: at `today = 2026-03-05` inside the sample window the bounds
hold. -/
theorem days_elapsed_bounds_witness :
    0 ≤ days_elapsed ⟨2026, 3, 5⟩ paceBudget ∧
    days_elapsed ⟨2026, 3, 5⟩ paceBudget ≤ days_total paceBudget ∧
    0 ≤ expected_spending ⟨2026, 3, 5⟩ paceBudget ∧
    expected_spending ⟨2026, 3, 5⟩ paceBudget ≤ paceBudget.amount :=
  days_elapsed_bounds_inside_window ⟨2026, 3, 5⟩ paceBudget (by decide) (by decide)
    (by norm_num [paceBudget])

/-!
## `calculate_financial_summary`
(`app/services/metrics_service.py`, lines 15-117)

In the source, the `if today.month == 1:` branch assigns
`current_month_start` and `previous_month_end` and nothing else; the whole
rest of the function body — every query, the percentage-change helper and
the `return` — is indented under the `else:` branch.  A call made in
January therefore falls off the end of the function and returns `None`,
which the embedding renders as `Option.none`.
-/

/-- A `transactions` table row as `calculate_financial_summary` reads it
(only `user_id`, `amount` and `transaction_date` are touched). -/
structure MTx where
  user_id : ℤ
  amount : ℚ
  transaction_date : PDate
deriving DecidableEq

/-- All-time signed sum (`select(func.sum(Transaction.amount)).where(user_id == user_id)`,
then `or 0.0`). -/
def total_balance (uid : ℤ) (txs : List MTx) : ℚ :=
  orZero (sqlSum ((txs.filter fun t => decide (t.user_id = uid)).map (·.amount)))

/-- Current-month income: positive amounts dated on/after `current_month_start`
(no upper bound in the query). -/
def monthly_income (uid : ℤ) (monthStart : PDate) (txs : List MTx) : ℚ :=
  orZero (sqlSum ((txs.filter fun t =>
    decide (t.user_id = uid ∧ 0 < t.amount ∧ monthStart.ord ≤ t.transaction_date.ord)).map
      (·.amount)))

/-- Current-month expenses: `sum(abs(amount))` over negative amounts dated
on/after `current_month_start`. -/
def monthly_expenses (uid : ℤ) (monthStart : PDate) (txs : List MTx) : ℚ :=
  orZero (sqlSum ((txs.filter fun t =>
    decide (t.user_id = uid ∧ t.amount < 0 ∧ monthStart.ord ≤ t.transaction_date.ord)).map
      (fun t => |t.amount|)))

/-- Previous-month income: `sum(abs(amount))` over positive amounts with
`previous_month_start <= transaction_date < previous_month_end` — the upper
comparison in the source is strict (`<`), so the last day of the previous
month is excluded. -/
def previous_income (uid : ℤ) (ps pe : PDate) (txs : List MTx) : ℚ :=
  orZero (sqlSum ((txs.filter fun t =>
    decide (t.user_id = uid ∧ 0 < t.amount ∧ ps.ord ≤ t.transaction_date.ord ∧
      t.transaction_date.ord < pe.ord)).map (fun t => |t.amount|)))

/-- Previous-month expenses, same strict upper bound as `previous_income`. -/
def previous_expenses (uid : ℤ) (ps pe : PDate) (txs : List MTx) : ℚ :=
  orZero (sqlSum ((txs.filter fun t =>
    decide (t.user_id = uid ∧ t.amount < 0 ∧ ps.ord ≤ t.transaction_date.ord ∧
      t.transaction_date.ord < pe.ord)).map (fun t => |t.amount|)))

/-- The nested helper `calculate_percentage_change(current, previous)`
(lines 92-98): when `previous == 0` it returns `"+100.0%"` for
`current >= 0` and `"0.0%"` otherwise; else it prepends a sign chosen by
`current >= 0` to the (itself signed) one-decimal rendering of
`((current - previous) / previous) * 100`. -/
def calculate_percentage_change (current previous : ℚ) : String :=
  if previous = 0 then (if 0 ≤ current then "+100.0%" else "0.0%")
  else
    let change := ((current - previous) / previous) * 100
    let sign := if 0 ≤ current then "+" else "-"
    sign ++ fmt1 change ++ "%"

/-- The balance-change baseline at line 100:
`total_balance - (monthly_income + monthly_expenses)`. -/
def balance_previous (tb mi me2 : ℚ) : ℚ := tb - (mi + me2)

/-- The dictionary returned by `calculate_financial_summary`. -/
structure FinSummary where
  total_balance : ℚ
  monthly_income : ℚ
  monthly_expenses : ℚ
  saving : ℚ
  balance_change : String
  income_change : String
  expenses_change : String
  savings_change : String
deriving DecidableEq

/-- The service `calculate_financial_summary(db, user_id)` evaluated at `today` over the
transaction rows `txs`.  Mirrors lines 19-117 of the source: the whole
computation lives in the `today.month != 1` branch; in January the function
returns `None`. -/
def calculate_financial_summary (today : PDate) (uid : ℤ) (txs : List MTx) :
    Option FinSummary :=
  if today.m = 1 then none
  else
    let current_month_start : PDate := ⟨today.y, today.m, 1⟩
    let previous_month_start : PDate := ⟨today.y, today.m - 1, 1⟩
    let previous_month_end : PDate := prevDay current_month_start
    let tb := total_balance uid txs
    let mi := monthly_income uid current_month_start txs
    let me2 := monthly_expenses uid current_month_start txs
    let pi2 := previous_income uid previous_month_start previous_month_end txs
    let pe2 := previous_expenses uid previous_month_start previous_month_end txs
    let savings := max tb 0
    some ⟨round2 tb, round2 mi, round2 me2, round2 savings,
      calculate_percentage_change tb (balance_previous tb mi me2),
      calculate_percentage_change mi pi2,
      calculate_percentage_change me2 pe2,
      calculate_percentage_change savings (max (tb - (mi + me2)) 0)⟩

/-- The first character of `(a ++ b) ++ c2` is the sole character of `a`. -/
theorem data_head_append (a b c2 : String) (ch : Char) (ha : a.data = [ch]) :
    ((a ++ b) ++ c2).data.head? = some ch := by
  simp [String.data_append, ha]

/-- C2 counterexample: the claim requires `"0%"` for
`(current, previous) = (0, 0)`, but the helper's zero-previous branch tests
`current >= 0` and answers `"+100.0%"`. -/
theorem percentage_change_zero_zero_counterexample :
    calculate_percentage_change 0 0 = "+100.0%" ∧ calculate_percentage_change 0 0 ≠ "0%" := by
  constructor
  · rfl
  · intro h
    rw [show calculate_percentage_change 0 0 = "+100.0%" from rfl] at h
    exact absurd h (by decide)

/-- C2 amended: when `previous == 0` the helper returns `"+100.0%"` for all
`current >= 0` (including `current == 0`) and `"0.0%"` for `current < 0`;
when `previous != 0` the leading sign character is chosen by the sign of
`current`, not of the delta `current - previous`, and is prepended to the
already-signed formatted number. -/
theorem percentage_change_behaviour (c p : ℚ) :
    (p = 0 → 0 ≤ c → calculate_percentage_change c p = "+100.0%") ∧
    (p = 0 → c < 0 → calculate_percentage_change c p = "0.0%") ∧
    (p ≠ 0 →
      ((calculate_percentage_change c p).data.head? = some '+' ↔ 0 ≤ c)) := by
  refine ⟨?_, ?_, ?_⟩
  · intro hp hc
    unfold calculate_percentage_change
    rw [if_pos hp, if_pos hc]
  · intro hp hc
    unfold calculate_percentage_change
    rw [if_pos hp, if_neg (not_le.mpr hc)]
  · intro hp
    unfold calculate_percentage_change
    rw [if_neg hp]
    by_cases hc : 0 ≤ c
    · rw [if_pos hc, data_head_append _ _ _ '+' rfl]
      simp [hc]
    · rw [if_neg hc, data_head_append _ _ _ '-' rfl]
      constructor
      · intro h
        injection h with h2
        exact absurd h2 (by decide)
      · intro h
        exact absurd h hc

/-- C2 witness: instantiating the amended statement at `(1, 0)` and `(3, 2)`. -/
theorem percentage_change_behaviour_witness :
    calculate_percentage_change 1 0 = "+100.0%" ∧
    ((calculate_percentage_change 3 2).data.head? = some '+' ↔ (0 : ℚ) ≤ 3) :=
  ⟨(percentage_change_behaviour 1 0).1 rfl (by norm_num),
   (percentage_change_behaviour 3 2).2.2 (by norm_num)⟩

/-- C3: evaluation at the failing inputs.  Any January as-of date makes
`calculate_financial_summary` return `None` (its entire body sits under the
`else` of `if today.month == 1`), and the previous-month window excludes
the last calendar day of that month: a transaction dated 2026-01-31 —
`previous_month_end` for a February as-of date — contributes nothing to
`previous_income` because the query compares with strict `<`. -/
theorem january_summary_none_and_boundary_excluded :
    (∀ (uid : ℤ) (txs : List MTx),
      calculate_financial_summary ⟨2026, 1, 15⟩ uid txs = none) ∧
    previous_income 1 ⟨2026, 1, 1⟩ ⟨2026, 1, 31⟩ [⟨1, 100, ⟨2026, 1, 31⟩⟩] = 0 := by
  constructor
  · intro uid txs
    rfl
  · norm_num [previous_income, orZero, sqlSum, List.filter, PDate.ord, daysBeforeMonth,
      isLeap]

/-- C7 counterexample: at `total_balance = 6`, `monthly_income = 10`,
`monthly_expenses = 4`, the baseline the code computes at line 100
(`balance_previous`) is `6 - (10 + 4) = -8`, not the claimed
`6 - (10 - 4) = 0`. -/
theorem balance_baseline_counterexample :
    balance_previous 6 10 4 = -8 ∧ balance_previous 6 10 4 ≠ 6 - (10 - 4) := by
  constructor
  · norm_num [balance_previous]
  · norm_num [balance_previous]

/-- C7 amended: the baseline backed out of the running total for the balance
percentage-change is `total_balance - (monthly_income + monthly_expenses)`,
not `total_balance - (monthly_income - monthly_expenses)`; the two differ
whenever `monthly_expenses != 0`. -/
theorem balance_baseline_formula (today : PDate) (uid : ℤ) (txs : List MTx)
    (h : today.m ≠ 1) :
    (∃ s, calculate_financial_summary today uid txs = some s ∧
      s.balance_change = calculate_percentage_change (total_balance uid txs)
        (balance_previous (total_balance uid txs)
          (monthly_income uid ⟨today.y, today.m, 1⟩ txs)
          (monthly_expenses uid ⟨today.y, today.m, 1⟩ txs))) ∧
    ∀ tb mi me2 : ℚ, me2 ≠ 0 → balance_previous tb mi me2 ≠ tb - (mi - me2) := by
  constructor
  · unfold calculate_financial_summary
    rw [if_neg h]
    exact ⟨_, rfl, rfl⟩
  · intro tb mi me2 hme heq
    unfold balance_previous at heq
    apply hme
    linarith

/-- C7 witness for the amended statement, at 2026-03-15 over no rows, plus
one concrete instance of the divergence clause. -/
theorem balance_baseline_formula_witness :
    (∃ s, calculate_financial_summary ⟨2026, 3, 15⟩ 1 [] = some s ∧
      s.balance_change = calculate_percentage_change (total_balance 1 [])
        (balance_previous (total_balance 1 []) (monthly_income 1 ⟨2026, 3, 1⟩ [])
          (monthly_expenses 1 ⟨2026, 3, 1⟩ []))) ∧
    balance_previous 1 2 3 ≠ 1 - (2 - 3) :=
  ⟨(balance_baseline_formula ⟨2026, 3, 15⟩ 1 [] (by decide)).1,
   (balance_baseline_formula ⟨2026, 3, 15⟩ 1 [] (by decide)).2 1 2 3 (by norm_num)⟩

/-- C10: whenever a summary is produced, its `saving` equals the reported
total balance clamped below at zero (`max(total_balance, 0.0)`), is never
negative, depends only on the all-time total (not on the month's
income/expense split), and that same clamped raw value is the `current`
argument of the savings percentage-change. -/
theorem saving_clamped_total_balance (today : PDate) (uid : ℤ) (txs : List MTx)
    (h : today.m ≠ 1) :
    ∃ s, calculate_financial_summary today uid txs = some s ∧
      s.saving = max s.total_balance 0 ∧ 0 ≤ s.saving ∧
      s.saving = round2 (max (total_balance uid txs) 0) ∧
      s.savings_change = calculate_percentage_change (max (total_balance uid txs) 0)
        (max (total_balance uid txs -
          (monthly_income uid ⟨today.y, today.m, 1⟩ txs +
            monthly_expenses uid ⟨today.y, today.m, 1⟩ txs)) 0) := by
  unfold calculate_financial_summary
  rw [if_neg h]
  refine ⟨_, rfl, ?_, ?_, rfl, rfl⟩
  · exact round2_max_zero _
  · exact round2_nonneg (le_max_right _ _)

/-- C10 witness, at 2026-03-15 over no rows. -/
theorem saving_clamped_total_balance_witness :
    ∃ s, calculate_financial_summary ⟨2026, 3, 15⟩ 1 [] = some s ∧
      s.saving = max s.total_balance 0 ∧ 0 ≤ s.saving ∧
      s.saving = round2 (max (total_balance 1 []) 0) ∧
      s.savings_change = calculate_percentage_change (max (total_balance 1 []) 0)
        (max (total_balance 1 [] -
          (monthly_income 1 ⟨2026, 3, 1⟩ [] + monthly_expenses 1 ⟨2026, 3, 1⟩ [])) 0) :=
  saving_clamped_total_balance ⟨2026, 3, 15⟩ 1 [] (by decide)

/-!
## `get_budget_alerts` / `get_budget_overview`
(`app/services/budget_metrics_service.py` lines 12-69 and
`app/services/metrics_service.py` lines 235-288)
-/

/-- Python `(spent_amount / budget.amount) * 100 if budget.amount > 0 else 0` —
the guarded percentage both services compute. -/
def percentage_used (spent amount : ℚ) : ℚ :=
  if 0 < amount then spent / amount * 100 else 0

/-- Status derivation implicit in `get_budget_alerts`' branch structure
(`budget_metrics_service.py` lines 42-64): `exceeded` when
`spent_amount > budget.amount`, `warning` when
`percentage >= budget.alert_threshold`, nothing otherwise. -/
def alert_status (spent amount threshold : ℚ) : String :=
  if amount < spent then "over"
  else if threshold ≤ percentage_used spent amount then "warning"
  else "good"

/-- Status derivation in `metrics_service.get_budget_overview`
(lines 269-277): `over` when `percentage > 100`, `warning` when
`percentage >= 80` — a fixed literal, not the budget's `alert_threshold`. -/
def overview_status (spent amount : ℚ) : String :=
  if 100 < percentage_used spent amount then "over"
  else if 80 ≤ percentage_used spent amount then "warning"
  else "good"

/-- Modelled from the spec: the claimed status rule — `"over"` iff
`spent > amount`, `"warning"` iff not over and
`percentage_used >= alert_threshold`, else `"good"` (for refinement
comparison against the two source derivations). -/
def status_spec (spent amount threshold : ℚ) : String :=
  if amount < spent then "over"
  else if threshold ≤ percentage_used spent amount then "warning"
  else "good"

/-- C1 counterexample: a budget with `alert_threshold = 50`, `amount = 100`
and `spent = 60` is `"warning"` under the claimed rule but `"good"` in
`get_budget_overview`, which hard-codes the 80 threshold. -/
theorem overview_ignores_threshold_counterexample :
    overview_status 60 100 = "good" ∧ status_spec 60 100 50 = "warning" ∧
    overview_status 60 100 ≠ status_spec 60 100 50 := by
  have h1 : overview_status 60 100 = "good" := by
    norm_num [overview_status, percentage_used]
  have h2 : status_spec 60 100 50 = "warning" := by
    norm_num [status_spec, percentage_used]
  refine ⟨h1, h2, ?_⟩
  rw [h1, h2]
  decide

/-- C1 amended: the claimed rule is exactly what `get_budget_alerts`
implements; `get_budget_overview` agrees with it only for positive budget
amounts with the default threshold 80, and calls a zero-amount overspent
budget `"good"` where the rule says `"over"`. -/
theorem status_rule_refined (spent amount threshold : ℚ) :
    alert_status spent amount threshold = status_spec spent amount threshold ∧
    (0 < amount → overview_status spent amount = status_spec spent amount 80) ∧
    (amount = 0 → 0 < spent →
      overview_status spent amount = "good" ∧ status_spec spent amount 80 = "over") := by
  refine ⟨rfl, ?_, ?_⟩
  · intro h
    have hiff : (100 < percentage_used spent amount) ↔ amount < spent := by
      unfold percentage_used
      rw [if_pos h, div_mul_eq_mul_div, lt_div_iff h]
      constructor
      · intro hx; nlinarith
      · intro hx; nlinarith
    unfold overview_status status_spec
    by_cases hs : amount < spent
    · rw [if_pos (hiff.mpr hs), if_pos hs]
    · rw [if_neg (fun hx => hs (hiff.mp hx)), if_neg hs]
  · intro h0 hs
    constructor
    · subst h0
      unfold overview_status percentage_used
      norm_num
    · unfold status_spec
      rw [if_pos (h0 ▸ hs)]

/-- C1 witness: the refinement instantiated at `spent = 50`, `amount = 100`,
`threshold = 80`. -/
theorem status_rule_refined_witness :
    alert_status 50 100 80 = status_spec 50 100 80 ∧
    overview_status 50 100 = status_spec 50 100 80 :=
  ⟨(status_rule_refined 50 100 80).1,
   (status_rule_refined 50 100 80).2.1 (by norm_num)⟩

/-- A `transactions` row as the budget services read it. -/
structure BTx where
  user_id : ℤ
  category_id : ℤ
  amount : ℚ
  transaction_date : PDate
  type : String
deriving DecidableEq

/-- The filter clause of the spent-amount query in `get_budget_alerts` /
`get_budget_overview` / `get_budget_performance`: same user, same category,
`transaction_date` inside `[start_date, end_date]` (inclusive both ends),
`type == "expense"`. -/
def tx_in_budget_window (uid cid : ℤ) (sd ed : PDate) (t : BTx) : Bool :=
  decide (t.user_id = uid ∧ t.category_id = cid ∧ sd.ord ≤ t.transaction_date.ord ∧
    t.transaction_date.ord ≤ ed.ord ∧ t.type = "expense")

/-- The query `select(func.sum(Transaction.amount)).where(...)` then
`.scalar() or 0.0` — the spent-amount aggregation (§4.1's `sum_spent`). -/
def sum_spent (uid cid : ℤ) (sd ed : PDate) (txs : List BTx) : ℚ :=
  orZero (sqlSum ((txs.filter (tx_in_budget_window uid cid sd ed)).map (·.amount)))

/-- C9: when no transaction matches the user/category/window/type filter,
`sum_spent` returns `0.0`; in the embedding it is a total function, so no
exception path exists. -/
theorem sum_spent_empty_zero (uid cid : ℤ) (sd ed : PDate) (txs : List BTx)
    (h : txs.filter (tx_in_budget_window uid cid sd ed) = []) :
    sum_spent uid cid sd ed txs = 0 := by
  unfold sum_spent
  rw [h]
  rfl

/-- C9 witness: the empty transaction table. -/
theorem sum_spent_empty_zero_witness :
    sum_spent 1 1 ⟨2026, 3, 1⟩ ⟨2026, 3, 31⟩ [] = 0 :=
  sum_spent_empty_zero 1 1 ⟨2026, 3, 1⟩ ⟨2026, 3, 31⟩ [] rfl

/-- A `categories` table row. -/
structure Category where
  id : ℤ
  user_id : ℤ
  name : String
deriving DecidableEq

/-- An alert dictionary as built by `get_budget_alerts`. -/
structure Alert where
  id : String
  budgetId : ℤ
  type : String
  category : String
  message : String
  severity : String
  dismissed : Bool
deriving DecidableEq

/-- The lookup `select(Category).where(Category.id == budget.category_id)` with the
`"Unknown"` fallback of line 40. -/
def category_name_of (cats : List Category) (cid : ℤ) : String :=
  match cats.find? (fun c => decide (c.id = cid)) with
  | some c => c.name
  | none => "Unknown"

/-- The body of the `for budget in budgets:` loop of `get_budget_alerts`
(lines 23-64): at most one alert per budget — an `exceeded`/`high` alert
when `spent_amount > budget.amount`, else a `warning` alert with severity
`"medium"` when `percentage >= 90` and `"low"` otherwise, when
`percentage >= budget.alert_threshold`; no alert in the remaining case. -/
def alert_of (txs : List BTx) (cats : List Category) (b : Budget) : Option Alert :=
  if b.amount < sum_spent b.user_id b.category_id b.start_date b.end_date txs then
    some ⟨"alert-" ++ toString b.id ++ "-exceeded", b.id, "exceeded",
      category_name_of cats b.category_id,
      "Has excedido el presupuesto en €" ++
        fmt2 (sum_spent b.user_id b.category_id b.start_date b.end_date txs - b.amount),
      "high", false⟩
  else if b.alert_threshold ≤ percentage_used
      (sum_spent b.user_id b.category_id b.start_date b.end_date txs) b.amount then
    some ⟨"alert-" ++ toString b.id ++ "-warning", b.id, "warning",
      category_name_of cats b.category_id,
      "Has usado el " ++
        fmt0 (percentage_used (sum_spent b.user_id b.category_id b.start_date b.end_date txs)
          b.amount) ++
        "% de tu presupuesto (€" ++
        fmt0 (sum_spent b.user_id b.category_id b.start_date b.end_date txs) ++ " de €" ++
        fmt0 b.amount ++ ")",
      if 90 ≤ percentage_used (sum_spent b.user_id b.category_id b.start_date b.end_date txs)
          b.amount then "medium" else "low",
      false⟩
  else none

/-- The rank `severity_order.get(severity, 3)` maps `high`, `medium`, `low`
to 0, 1, 2 and anything else to 3. -/
def severity_rank (s : String) : ℕ :=
  if s = "high" then 0 else if s = "medium" then 1 else if s = "low" then 2 else 3

/-- The sort key order of `alerts.sort(key=lambda x: severity_order.get(x["severity"], 3))`. -/
def alertKeyLE (x y : Alert) : Prop :=
  severity_rank x.severity ≤ severity_rank y.severity

instance : DecidableRel alertKeyLE := fun x y =>
  inferInstanceAs (Decidable (severity_rank x.severity ≤ severity_rank y.severity))

instance : IsTotal Alert alertKeyLE := ⟨fun x y => Nat.le_total _ _⟩

instance : IsTrans Alert alertKeyLE := ⟨fun _ _ _ => Nat.le_trans⟩

/-- The alerts list as accumulated by the loop, in budget evaluation order
(before the final sort). -/
def pre_alerts (txs : List BTx) (cats : List Category) (budgets : List Budget)
    (uid : ℤ) : List Alert :=
  (budgets.filter fun b => decide (b.user_id = uid)).filterMap (alert_of txs cats)

/-- The service `get_budget_alerts(db, user_id)`: build one optional alert per budget of
the user, then sort by severity rank.  Python's `list.sort` is stable; a
stable sort by a fixed key is unique, so it is modeled by the (stable)
insertion sort. -/
def get_budget_alerts (txs : List BTx) (cats : List Category) (budgets : List Budget)
    (uid : ℤ) : List Alert :=
  List.insertionSort alertKeyLE (pre_alerts txs cats budgets uid)

theorem filter_orderedInsert_of_neg (p : Alert → Bool) (a : Alert) (l : List Alert)
    (ha : p a = false) :
    (List.orderedInsert alertKeyLE a l).filter p = l.filter p := by
  induction l with
  | nil => simp [List.orderedInsert, ha]
  | cons b bs ih =>
    by_cases hr : alertKeyLE a b
    · simp [List.orderedInsert, hr, ha]
    · simp only [List.orderedInsert, if_neg hr]
      rw [List.filter_cons, List.filter_cons, ih]

theorem filter_orderedInsert_of_pos (p : Alert → Bool) (a : Alert) (l : List Alert)
    (ha : p a = true)
    (hp : ∀ y, p y = true → severity_rank y.severity = severity_rank a.severity) :
    (List.orderedInsert alertKeyLE a l).filter p = a :: l.filter p := by
  induction l with
  | nil => simp [List.orderedInsert, ha]
  | cons b bs ih =>
    by_cases hr : alertKeyLE a b
    · simp [List.orderedInsert, hr, ha]
    · have hpb : p b = false := by
        by_contra hb
        have hb2 : p b = true := by
          cases hpb2 : p b
          · exact absurd hpb2 hb
          · rfl
        have h3 := hp b hb2
        unfold alertKeyLE at hr
        omega
      simp [List.orderedInsert, hr, hpb, ih]

/-- Stability of the modeled sort: for each severity value the sorted list
restricted to that severity is exactly the pre-sort list restricted to it
(evaluation order preserved among ties). -/
theorem filter_insertionSort_severity (s : String) (l : List Alert) :
    (List.insertionSort alertKeyLE l).filter (fun a => a.severity == s)
      = l.filter (fun a => a.severity == s) := by
  induction l with
  | nil => rfl
  | cons x xs ih =>
    rw [List.insertionSort]
    by_cases hx : (x.severity == s) = true
    · have hp : ∀ y : Alert, (y.severity == s) = true →
          severity_rank y.severity = severity_rank x.severity := by
        intro y hy
        have h1 : y.severity = s := by simpa using hy
        have h2 : x.severity = s := by simpa using hx
        rw [h1, h2]
      rw [filter_orderedInsert_of_pos _ x _ hx hp, ih, List.filter_cons, if_pos hx]
    · have hx2 : (x.severity == s) = false := by
        cases hv : x.severity == s
        · rfl
        · exact absurd hv hx
      rw [filter_orderedInsert_of_neg _ x _ hx2, ih, List.filter_cons,
        if_neg (by simp [hx2])]

/-- C5: the alerts list is sorted by severity rank (`high`, `medium`,
`low`); per severity it preserves budget evaluation order (stability); it
has exactly as many entries as there are non-`"good"` budgets of the user,
and per budget the loop emits no alert exactly when the derived status is
`"good"`, an alert carrying that budget's id otherwise, with severity
`"high"` for `"over"` and `"medium"`/`"low"` for `"warning"` according to
`percentage_used >= 90`. -/
theorem budget_alerts_sorted_stable (txs : List BTx) (cats : List Category)
    (budgets : List Budget) (uid : ℤ) :
    List.Pairwise alertKeyLE (get_budget_alerts txs cats budgets uid) ∧
    (∀ s : String,
      (get_budget_alerts txs cats budgets uid).filter (fun a => a.severity == s)
        = (pre_alerts txs cats budgets uid).filter (fun a => a.severity == s)) ∧
    (get_budget_alerts txs cats budgets uid).length
      = (pre_alerts txs cats budgets uid).length ∧
    (∀ b : Budget,
      (alert_of txs cats b).elim
        (alert_status (sum_spent b.user_id b.category_id b.start_date b.end_date txs)
          b.amount b.alert_threshold = "good")
        (fun a => a.budgetId = b.id ∧
          alert_status (sum_spent b.user_id b.category_id b.start_date b.end_date txs)
            b.amount b.alert_threshold ≠ "good" ∧
          a.severity =
            (if alert_status (sum_spent b.user_id b.category_id b.start_date b.end_date txs)
                b.amount b.alert_threshold = "over" then "high"
             else if 90 ≤ percentage_used
                (sum_spent b.user_id b.category_id b.start_date b.end_date txs) b.amount
              then "medium" else "low"))) := by
  refine ⟨List.sorted_insertionSort alertKeyLE _, ?_, ?_, ?_⟩
  · intro s
    exact filter_insertionSort_severity s _
  · exact (List.perm_insertionSort alertKeyLE _).length_eq
  · intro b
    unfold alert_of alert_status
    by_cases h1 : b.amount < sum_spent b.user_id b.category_id b.start_date b.end_date txs
    · rw [if_pos h1, if_pos h1]
      exact ⟨rfl, by decide, by rw [if_pos rfl]⟩
    · by_cases h2 : b.alert_threshold ≤ percentage_used
          (sum_spent b.user_id b.category_id b.start_date b.end_date txs) b.amount
      · rw [if_neg h1, if_neg h1, if_pos h2, if_pos h2]
        exact ⟨rfl, by decide, by rw [if_neg (by decide : ¬ ("warning" : String) = "over")]⟩
      · rw [if_neg h1, if_neg h1, if_neg h2, if_neg h2]
        exact rfl

/-- C5 witness: the sortedness, stability and length parts instantiated on a
concrete (empty) table. -/
theorem budget_alerts_sorted_stable_witness :
    List.Pairwise alertKeyLE (get_budget_alerts [] [] [] 1) ∧
    (get_budget_alerts [] [] [] 1).filter (fun a => a.severity == "high")
      = (pre_alerts [] [] [] 1).filter (fun a => a.severity == "high") ∧
    (get_budget_alerts [] [] [] 1).length = (pre_alerts [] [] [] 1).length :=
  ⟨(budget_alerts_sorted_stable [] [] [] 1).1,
   (budget_alerts_sorted_stable [] [] [] 1).2.1 "high",
   (budget_alerts_sorted_stable [] [] [] 1).2.2.1⟩

/-!
## `ai_service.py`: insight generation and defensive JSON parsing
(`app/services/ai_service.py` lines 52-148, 370-435, 438-465)

`json.loads` is modeled by an abstract parameter
`loads : List Char → Option LoadedVal` (`none` = `JSONDecodeError`); the
parsed Python value is abstracted by the one observation the service makes
of it: whether `"insights" not in result` fails.  Text is carried as
`List Char`; `re.search(r"\x7b.* \x7d", text, re.DOTALL)` (first opening
brace through the last space-then-closing-brace pair) and the code-fence
splitting are implemented on character lists.
-/

/-- A value returned by `json.loads`, observed only through the
`"insights" not in result` test. -/
structure LoadedVal where
  hasInsights : Bool
deriving DecidableEq

/-- Result of `extract_json_from_response`: either a parsed value or the
error dictionary `{"error": ..., "raw_response": ..., "parsing_error": ...}`
built at lines 461-465. -/
inductive ExtractResult where
  | parsed (v : LoadedVal)
  | parseError (raw : List Char)
deriving DecidableEq

/-- Keys of the parse-failure dictionary. -/
def errorDictKeys : List String := ["error", "raw_response", "parsing_error"]

/-- The negated membership test of the source line 141. -/
def hasInsightsKey : ExtractResult → Bool
  | .parsed v => v.hasInsights
  | .parseError _ => errorDictKeys.contains ("insights")

def braceO : Char := Char.ofNat 123

def braceC : Char := Char.ofNat 125

def isPrefixL : List Char → List Char → Bool
  | [], _ => true
  | _ :: _, [] => false
  | a :: as, b :: bs => a == b && isPrefixL as bs

/-- Python `pat in text` on character lists. -/
def containsList : List Char → List Char → Bool
  | [], pat => pat.isEmpty
  | h :: t, pat => isPrefixL pat (h :: t) || containsList t pat

/-- The characters following the first occurrence of `pat`
(`text.split(pat)[1]`, first step). -/
def afterFirst : List Char → List Char → Option (List Char)
  | [], _ => none
  | h :: t, pat =>
    if isPrefixL pat (h :: t) then some ((h :: t).drop pat.length) else afterFirst t pat

/-- The characters before the first occurrence of `pat` (or all of them). -/
def takeUntil : List Char → List Char → List Char
  | [], _ => []
  | h :: t, pat => if isPrefixL pat (h :: t) then [] else h :: takeUntil t pat

def isWS (c : Char) : Bool := c == ' ' || c == '\n' || c == '\t' || c == '\r'

/-- Python `str.strip()`. -/
def trimChars (cs : List Char) : List Char :=
  ((cs.dropWhile isWS).reverse.dropWhile isWS).reverse

def fenceJson : List Char := "```json".toList

def fence : List Char := "```".toList

/-- Lines 451-454: take the chunk after the first ` ```json ` (or ` ``` `)
fence up to the following fence; leave the text alone when no fence
occurs. -/
def stripFences (cs : List Char) : List Char :=
  if containsList cs fenceJson then
    takeUntil (takeUntil ((afterFirst cs fenceJson).getD []) fenceJson) fence
  else if containsList cs fence then
    takeUntil (takeUntil ((afterFirst cs fence).getD []) fence) fence
  else cs

/-- Index of the last position `j` with `cs[j] = ' '` and `cs[j+1]` a
closing brace (the end of the greedy DOTALL match of the brace pattern). -/
def lastSpaceBrace : List Char → Option ℕ
  | [] => none
  | [_] => none
  | c :: d :: rest =>
    match lastSpaceBrace (d :: rest) with
    | some j => some (j + 1)
    | none => if c == ' ' && d == braceC then some 0 else none

/-- The substring matched by `re.search(json_pattern, text, re.DOTALL)`:
from the first opening brace through the last space-closing-brace pair
after it, if any. -/
def regexCandidate (cs : List Char) : Option (List Char) :=
  match cs.findIdx? (fun c => c == braceO), lastSpaceBrace cs with
  | some i, some j => if i + 1 ≤ j then some ((cs.drop i).take (j + 2 - i)) else none
  | _, _ => none

/-- Lines 438-465, `extract_json_from_response(text)`: try `json.loads` on
the regex match, then strip code fences and try again, and fall back to the
error dictionary when both parses fail. -/
def extract_json_from_response (loads : List Char → Option LoadedVal)
    (text : List Char) : ExtractResult :=
  match (regexCandidate (trimChars text)).bind loads with
  | some v => .parsed v
  | none =>
    match loads (trimChars (stripFences (trimChars text))) with
    | some v => .parsed v
    | none => .parseError (trimChars (stripFences (trimChars text)))

/-- A transaction dictionary as the insight functions read it
(`tx['amount']`, `tx['category']`). -/
structure AITx where
  amount : ℚ
  category : String
deriving DecidableEq

/-- Python `category_expenses[category] = category_expenses.get(category, 0) + abs(amount)`
in dictionary insertion order. -/
def add_expense (acc : List (String × ℚ)) (c : String) (v : ℚ) : List (String × ℚ) :=
  match acc with
  | [] => [(c, v)]
  | (c2, s) :: rest =>
    if c2 = c then (c2, s + v) :: rest else (c2, s) :: add_expense rest c v

/-- Lines 70-74: per-category absolute expense totals over
negative-amount transactions. -/
def category_expenses (txs : List AITx) : List (String × ℚ) :=
  txs.foldl (fun acc t => if t.amount < 0 then add_expense acc t.category |t.amount| else acc) []

/-- A budget dictionary as passed to `generate_financial_insights`. -/
structure BudgetDict where
  category : String
  spent : ℚ
  budget : ℚ
  status : String
deriving DecidableEq

/-- An entry of `budget_status` (lines 76-84). -/
structure BudgetOver where
  category : String
  amount : ℚ
  budget : ℚ
  exceeded_by : ℚ
deriving DecidableEq

/-- Lines 76-84: the over-budget entries, in input order. -/
def budget_status_list (budgets : List BudgetDict) : List BudgetOver :=
  budgets.filterMap fun b =>
    if b.status = "over" then some ⟨b.category, b.spent, b.budget, b.spent - b.budget⟩
    else none

/-- The financial-summary dictionary as read via `.get(..., 0)`. -/
structure AISummary where
  monthly_income : ℚ
  monthly_expenses : ℚ
  total_balance : ℚ
deriving DecidableEq

/-- An insight dictionary. -/
structure Insight where
  type : String
  title : String
  message : String
  confidence : String
  icon : String
  color : String
  amount : Option ℚ
  category : Option String
deriving DecidableEq

/-- Python `max(items, key=lambda x: x[1])` over a nonempty association
list: first maximal entry wins ties. -/
def max_by_value (x : String × ℚ) (rest : List (String × ℚ)) : String × ℚ :=
  rest.foldl (fun best y => if best.2 < y.2 then y else best) x

/-- The service `generate_fallback_insights(financial_summary, budget_status, category_expenses)`
(lines 370-435): the deterministic rule-based insights. -/
def generate_fallback_insights (fs : AISummary) (bs : List BudgetOver)
    (ce : List (String × ℚ)) : List Insight :=
  (if 0 < fs.monthly_expenses then
    [⟨"prediction", "Predicción de Gastos",
      "Basado en tu patrón, gastarás aproximadamente €" ++
        fmt2 (fs.monthly_expenses * (21 / 20)) ++ " este mes",
      "Media", "brain", "primary", some (fs.monthly_expenses * (21 / 20)), none⟩]
  else []) ++
  (match bs with
   | ba :: _ =>
     [⟨"warning", "Alerta de Presupuesto",
       ba.category ++ " excedió el límite en €" ++ fmt2 ba.exceeded_by,
       "Crítico", "alert-triangle", "destructive", some ba.exceeded_by, some ba.category⟩]
   | [] =>
     if fs.monthly_income * (9 / 10) < fs.monthly_expenses then
       [⟨"warning", "Gastos Elevados",
         "Tus gastos representan el " ++
           fmt1 (if 0 < fs.monthly_income then
             fs.monthly_expenses / fs.monthly_income * 100 else 0) ++
           "% de tus ingresos",
         "Alta", "alert-triangle", "destructive", none, none⟩]
     else []) ++
  (match ce with
   | x :: rest =>
     [⟨"tip", "Oportunidad de Ahorro",
       "Podrías ahorrar €" ++ fmt2 ((max_by_value x rest).2 * (3 / 20)) ++
         "/mes optimizando gastos en " ++ (max_by_value x rest).1,
       "Media", "lightbulb", "secondary", some ((max_by_value x rest).2 * (3 / 20)),
       some (max_by_value x rest).1⟩]
   | [] =>
     [⟨"tip", "Consejo Financiero",
       "Establece presupuestos por categoría para controlar mejor tus gastos",
       "Alta", "lightbulb", "secondary", none, none⟩])

/-- What `generate_financial_insights` returns: the LLM's parsed dictionary
or the deterministic fallback list. -/
inductive AIResult where
  | fromLLM (r : ExtractResult)
  | fallback (insights : List Insight)
deriving DecidableEq

/-- The service `generate_financial_insights(transactions, budgets, financial_summary)`
(lines 52-148).  `llm` is the outcome of `model.generate_content(prompt)`:
`Except.error` when the call raises, `Except.ok text` otherwise.  The
`try/except Exception` wraps the LLM call, the parse and the key check, so
every failure path lands in `generate_fallback_insights`. -/
def generate_financial_insights (loads : List Char → Option LoadedVal)
    (llm : Except String (List Char)) (transactions : List AITx)
    (budgets : List BudgetDict) (financial_summary : AISummary) : AIResult :=
  match llm with
  | .error _ =>
    .fallback (generate_fallback_insights financial_summary
      (budget_status_list budgets) (category_expenses transactions))
  | .ok text =>
    if hasInsightsKey (extract_json_from_response loads text) then
      .fromLLM (extract_json_from_response loads text)
    else
      .fallback (generate_fallback_insights financial_summary
        (budget_status_list budgets) (category_expenses transactions))

/-- When the parser never succeeds, the extraction ends in the error
dictionary. -/
theorem extract_none_of_loads_none (loads : List Char → Option LoadedVal)
    (text : List Char) (h : ∀ s, loads s = none) :
    extract_json_from_response loads text
      = .parseError (trimChars (stripFences (trimChars text))) := by
  unfold extract_json_from_response
  cases hrc : regexCandidate (trimChars text) with
  | none => simp [h]
  | some c => simp [h]

/-- C6: every LLM exception and every response whose defensive parse does
not produce an `"insights"` key — in particular any response no parse
attempt accepts — yields exactly the deterministic fallback insights, and
in every remaining case the parsed value with its `"insights"` key is
returned: no error propagates. -/
theorem insights_fallback_on_failure (loads : List Char → Option LoadedVal)
    (text : List Char) (e : String) (txl : List AITx) (bl : List BudgetDict)
    (fs : AISummary) :
    (generate_financial_insights loads (Except.error e) txl bl fs
      = AIResult.fallback (generate_fallback_insights fs (budget_status_list bl)
          (category_expenses txl))) ∧
    (hasInsightsKey (extract_json_from_response loads text) = false →
      generate_financial_insights loads (Except.ok text) txl bl fs
        = AIResult.fallback (generate_fallback_insights fs (budget_status_list bl)
            (category_expenses txl))) ∧
    ((∀ s, loads s = none) →
      generate_financial_insights loads (Except.ok text) txl bl fs
        = AIResult.fallback (generate_fallback_insights fs (budget_status_list bl)
            (category_expenses txl))) ∧
    (generate_financial_insights loads (Except.ok text) txl bl fs
        = AIResult.fallback (generate_fallback_insights fs (budget_status_list bl)
            (category_expenses txl)) ∨
      ∃ v, generate_financial_insights loads (Except.ok text) txl bl fs
          = AIResult.fromLLM (ExtractResult.parsed v) ∧ v.hasInsights = true) := by
  refine ⟨rfl, ?_, ?_, ?_⟩
  · intro h
    simp [generate_financial_insights, h]
  · intro hnone
    have h2 : hasInsightsKey (extract_json_from_response loads text) = false := by
      rw [extract_none_of_loads_none loads text hnone]
      exact (by decide : errorDictKeys.contains ("insights") = false)
    simp [generate_financial_insights, h2]
  · by_cases hk : hasInsightsKey (extract_json_from_response loads text) = true
    · right
      cases hr : extract_json_from_response loads text with
      | parsed v =>
        rw [hr] at hk
        refine ⟨v, ?_, hk⟩
        simp [generate_financial_insights, hr, hk]
      | parseError raw =>
        rw [hr] at hk
        exact absurd hk (by exact (by decide : ¬ errorDictKeys.contains ("insights") = true))
    · left
      have hk2 : hasInsightsKey (extract_json_from_response loads text) = false := by
        cases hv : hasInsightsKey (extract_json_from_response loads text)
        · rfl
        · exact absurd hv hk
      simp [generate_financial_insights, hk2]

/-- C6 witness: a parser that always fails (total non-JSON garbage) on a
plain-text response. -/
theorem insights_fallback_on_failure_witness :
    generate_financial_insights (fun _ => none) (Except.ok ("hola".toList)) [] [] ⟨0, 0, 0⟩
      = AIResult.fallback (generate_fallback_insights ⟨0, 0, 0⟩ [] []) :=
  (insights_fallback_on_failure (fun _ => none) ("hola".toList) ("err") [] [] ⟨0, 0, 0⟩).2.2.1
    (fun _ => rfl)

/-!
## `generate_spending_predictions`
(`app/services/ai_service.py` lines 150-179)

`std_dev = (...)**0.5` is modeled by an explicit square-root parameter
`sq : ℚ → ℚ`; concrete evaluations instantiate it with `Rat.sqrt`, exact on
perfect squares.  Note the source computes
`confidence = min(0.9, (1 - std_dev/avg) if avg > 0 else 0.5)` — there is
no `max(0, ...)` clamp.
-/

/-- Python `category_data[category].append(abs(amount))` grouping, in dictionary
insertion order. -/
def add_amount (acc : List (String × List ℚ)) (c : String) (v : ℚ) :
    List (String × List ℚ) :=
  match acc with
  | [] => [(c, [v])]
  | (c2, vs) :: rest =>
    if c2 = c then (c2, vs ++ [v]) :: rest else (c2, vs) :: add_amount rest c v

/-- Lines 158-161: absolute amounts of negative transactions grouped by
category. -/
def category_data (txs : List AITx) : List (String × List ℚ) :=
  txs.foldl (fun acc t => if t.amount < 0 then add_amount acc t.category |t.amount| else acc) []

/-- Python `avg = sum(amounts) / len(amounts)`. -/
def listMean (l : List ℚ) : ℚ := l.sum / (l.length : ℚ)

/-- Python `std_dev**2 = sum((x - avg)**2 for x in amounts) / len(amounts)`. -/
def popVariance (l : List ℚ) : ℚ :=
  ((l.map fun x => (x - listMean l) ^ 2).sum) / (l.length : ℚ)

/-- Line 168: `min(0.9, (1 - std_dev/avg) if avg > 0 else 0.5)`. -/
def pred_confidence (sq : ℚ → ℚ) (amounts : List ℚ) : ℚ :=
  min (9 / 10)
    (if 0 < listMean amounts then 1 - sq (popVariance amounts) / listMean amounts else 1 / 2)

/-- A prediction dictionary (lines 170-177). -/
structure Prediction where
  type : String
  current : ℚ
  predicted : ℚ
  confidence : ℚ
  timeframe : String
  factors : List String
deriving DecidableEq

/-- The per-category body of the loop: a prediction for a category with at
least 3 expense observations, nothing otherwise. -/
def prediction_of (sq : ℚ → ℚ) (tf : String) (g : String × List ℚ) : Option Prediction :=
  if 3 ≤ g.2.length then
    some ⟨"spending",
      round2 ((g.2.drop (g.2.length - 4)).sum / ((min 4 g.2.length : ℕ) : ℚ)),
      round2 (listMean g.2),
      round2 (pred_confidence sq g.2),
      tf,
      ["Categoría: " ++ g.1,
       "Variabilidad: " ++ (if 7 / 10 < pred_confidence sq g.2 then "Baja" else "Alta")]⟩
  else none

/-- The service `generate_spending_predictions(transactions, timeframe)`. -/
def generate_spending_predictions (sq : ℚ → ℚ) (txs : List AITx) (tf : String) :
    List Prediction :=
  if txs.isEmpty then [] else (category_data txs).filterMap (prediction_of sq tf)

/-- Transactions for the C8 evaluations: five expenses in one category with
amounts whose population variance is the perfect square 4. -/
def c8txs : List AITx :=
  [⟨-(1 / 2), "Food"⟩, ⟨-(1 / 2), "Food"⟩, ⟨-(1 / 2), "Food"⟩, ⟨-(1 / 2), "Food"⟩,
   ⟨-(11 / 2), "Food"⟩]

/-- The grouped absolute amounts of `c8txs`. -/
def c8amounts : List ℚ := [1 / 2, 1 / 2, 1 / 2, 1 / 2, 11 / 2]

theorem category_data_c8txs :
    category_data c8txs = [("Food", c8amounts)] := by
  norm_num [category_data, c8txs, add_amount, List.foldl, c8amounts]

theorem round2_le_nine_tenths (q : ℚ) (h : q ≤ 9 / 10) : round2 q ≤ 9 / 10 := by
  unfold round2
  have h0 : q * 100 ≤ 90 := by linarith
  have h1 : rhe (q * 100) ≤ 90 := by
    refine (rhe_le_ceil _).trans ?_
    have h2 : ⌈q * 100⌉ ≤ ⌈(90 : ℚ)⌉ := Int.ceil_le_ceil h0
    simpa using h2
  have h3 : (rhe (q * 100) : ℚ) ≤ 90 := by exact_mod_cast h1
  linarith

theorem add_amount_pos (acc : List (String × List ℚ)) (c : String) (v : ℚ)
    (hacc : ∀ g ∈ acc, ∀ a ∈ g.2, 0 < a) (hv : 0 < v) :
    ∀ g ∈ add_amount acc c v, ∀ a ∈ g.2, 0 < a := by
  induction acc with
  | nil =>
    intro g hg a ha
    simp only [add_amount] at hg
    obtain rfl := List.mem_singleton.mp hg
    obtain rfl := List.mem_singleton.mp ha
    exact hv
  | cons p rest ih =>
    obtain ⟨c2, vs⟩ := p
    intro g hg a ha
    simp only [add_amount] at hg
    by_cases hc : c2 = c
    · rw [if_pos hc] at hg
      rcases List.mem_cons.mp hg with rfl | hmem
      · rcases List.mem_append.mp ha with h1 | h2
        · exact hacc (c2, vs) (List.mem_cons_self _ _) a h1
        · obtain rfl := List.mem_singleton.mp h2
          exact hv
      · exact hacc g (List.mem_cons_of_mem _ hmem) a ha
    · rw [if_neg hc] at hg
      rcases List.mem_cons.mp hg with rfl | hmem
      · exact hacc (c2, vs) (List.mem_cons_self _ _) a ha
      · exact ih (fun g2 hg2 a2 ha2 => hacc g2 (List.mem_cons_of_mem _ hg2) a2 ha2) g hmem
          a ha

theorem category_data_pos (txs : List AITx) :
    ∀ g ∈ category_data txs, ∀ a ∈ g.2, 0 < a := by
  unfold category_data
  suffices h : ∀ acc, (∀ g ∈ acc, ∀ a ∈ g.2, 0 < a) →
      ∀ g ∈ txs.foldl
        (fun acc t => if t.amount < 0 then add_amount acc t.category |t.amount| else acc) acc,
      ∀ a ∈ g.2, 0 < a by
    exact h [] (by simp)
  induction txs with
  | nil => intro acc hacc; simpa using hacc
  | cons t rest ih =>
    intro acc hacc
    simp only [List.foldl_cons]
    by_cases ht : t.amount < 0
    · rw [if_pos ht]
      exact ih _ (add_amount_pos acc t.category |t.amount| hacc (abs_pos.mpr (ne_of_lt ht)))
    · rw [if_neg ht]
      exact ih _ hacc

theorem length_filterMap_predictions (sq : ℚ → ℚ) (tf : String)
    (l : List (String × List ℚ)) :
    (l.filterMap (prediction_of sq tf)).length
      = (l.filter fun g => decide (3 ≤ g.2.length)).length := by
  induction l with
  | nil => rfl
  | cons g t ih =>
    by_cases hg : 3 ≤ g.2.length
    · have hex : ∃ P, prediction_of sq tf g = some P := by
        unfold prediction_of
        rw [if_pos hg]
        exact ⟨_, rfl⟩
      obtain ⟨P, hP⟩ := hex
      rw [List.filterMap_cons_some hP, List.filter_cons,
        if_pos (by simpa using hg)]
      simp [ih]
    · have hnone : prediction_of sq tf g = none := by
        unfold prediction_of
        rw [if_neg hg]
      rw [List.filterMap_cons_none hnone, List.filter_cons,
        if_neg (by simpa using hg)]
      exact ih

/-- C8 counterexample: on `c8txs` the mean is `3/2` and the standard
deviation `2`, so `1 - stdev/mean = -1/3`; the code's
`min(0.9, -1/3)` with no lower clamp emits confidence `-0.33`, impossible
under the claimed `max(0, min(0.9, ...))`. -/
theorem prediction_confidence_negative_counterexample :
    (generate_spending_predictions Rat.sqrt c8txs ("1month")).map Prediction.confidence
      = [-(33 / 100)] ∧ ¬ (0 : ℚ) ≤ -(33 / 100) := by
  constructor
  · have hmean : listMean c8amounts = 3 / 2 := by
      norm_num [listMean, c8amounts]
    have hvar : popVariance c8amounts = 4 := by
      norm_num [popVariance, listMean, c8amounts]
    have hsqrt : Rat.sqrt 4 = 2 := by
      rw [show (4 : ℚ) = 2 * 2 by norm_num, Rat.sqrt_eq]
      norm_num
    have hconf : pred_confidence Rat.sqrt c8amounts = -(1 / 3) := by
      unfold pred_confidence
      rw [hvar, hsqrt, hmean]
      norm_num [min_def]
    have hfloor : ⌊(-(1 / 3) : ℚ) * 100⌋ = -34 := by
      rw [Int.floor_eq_iff]
      norm_num
    have hround : round ((-(1 / 3) : ℚ) * 100) = -33 := by
      rw [round_eq]
      rw [Int.floor_eq_iff]
      norm_num
    have hr2 : round2 (-(1 / 3) : ℚ) = -(33 / 100) := by
      unfold round2 rhe
      rw [hfloor, if_neg (by norm_num), hround]
      norm_num
    have hP : ∃ P, prediction_of Rat.sqrt ("1month") ("Food", c8amounts) = some P ∧
        P.confidence = -(33 / 100) := by
      unfold prediction_of
      rw [if_pos (by norm_num [c8amounts])]
      refine ⟨_, rfl, ?_⟩
      show round2 (pred_confidence Rat.sqrt c8amounts) = -(33 / 100)
      rw [hconf, hr2]
    obtain ⟨P, hPe, hPc⟩ := hP
    unfold generate_spending_predictions
    rw [if_neg (by simp [c8txs])]
    rw [category_data_c8txs]
    simp [List.filterMap_cons, hPe, hPc]
  · norm_num

/-- C8 amended: one prediction per category with at least 3 expense
observations (none at all on an empty transaction list), each with
`predicted` the 2-decimal rounding of the mean of the absolute expense
amounts and `confidence` the 2-decimal rounding of
`min(0.9, 1 - stdev/mean)` — capped above at `0.9` but with no `max(0, ...)`
clamp below; the `0.5` branch for a zero mean is unreachable because every
grouped amount is a strictly positive absolute value. -/
theorem spending_predictions_shape (sq : ℚ → ℚ) (txs : List AITx) (tf : String) :
    ((generate_spending_predictions sq txs tf).length
      = if txs.isEmpty then 0
        else ((category_data txs).filter fun g => decide (3 ≤ g.2.length)).length) ∧
    (∀ p, p ∈ generate_spending_predictions sq txs tf →
      p.confidence ≤ 9 / 10 ∧ p.type = "spending" ∧ p.timeframe = tf) ∧
    (∀ g, g ∈ category_data txs → ∀ a, a ∈ g.2 → 0 < a) ∧
    (∀ g, g ∈ category_data txs → g.2 ≠ [] → 0 < listMean g.2) ∧
    (∀ g, g ∈ category_data txs → 3 ≤ g.2.length → ¬ txs.isEmpty = true →
      ∃ p, p ∈ generate_spending_predictions sq txs tf ∧
        p.predicted = round2 (listMean g.2) ∧
        p.confidence = round2 (pred_confidence sq g.2)) := by
  refine ⟨?_, ?_, category_data_pos txs, ?_, ?_⟩
  · unfold generate_spending_predictions
    by_cases he : txs.isEmpty
    · rw [if_pos he, if_pos he]
      rfl
    · rw [if_neg he, if_neg he]
      exact length_filterMap_predictions sq tf _
  · intro p hp
    unfold generate_spending_predictions at hp
    by_cases he : txs.isEmpty
    · rw [if_pos he] at hp
      simp at hp
    · rw [if_neg he] at hp
      obtain ⟨g, hg, hsome⟩ := List.mem_filterMap.mp hp
      unfold prediction_of at hsome
      by_cases h3 : 3 ≤ g.2.length
      · rw [if_pos h3] at hsome
        obtain rfl := Option.some_injective _ hsome
        refine ⟨round2_le_nine_tenths _ (min_le_left _ _), rfl, rfl⟩
      · rw [if_neg h3] at hsome
        exact absurd hsome (by simp)
  · intro g hg hne
    have hpos := category_data_pos txs g hg
    obtain ⟨c, l⟩ := g
    have hpos2 : ∀ a ∈ l, 0 < a := fun a ha => hpos a ha
    have hne2 : l ≠ [] := hne
    show 0 < listMean l
    cases l with
    | nil => exact absurd rfl hne2
    | cons a rest =>
      have ha : 0 < a := hpos2 a (by simp)
      have hrest : 0 ≤ rest.sum := by
        apply List.sum_nonneg
        intro x hx
        exact le_of_lt (hpos2 x (by simp [hx]))
      have hsum : 0 < (a :: rest).sum := by
        simp only [List.sum_cons]
        linarith
      have hlen : 0 < ((a :: rest).length : ℚ) := by
        have h0 : 0 < (a :: rest).length := Nat.succ_pos _
        exact_mod_cast h0
      exact div_pos hsum hlen
  · intro g hg h3 hne
    refine ⟨⟨"spending",
      round2 ((g.2.drop (g.2.length - 4)).sum / ((min 4 g.2.length : ℕ) : ℚ)),
      round2 (listMean g.2), round2 (pred_confidence sq g.2), tf,
      ["Categoría: " ++ g.1,
       "Variabilidad: " ++ (if 7 / 10 < pred_confidence sq g.2 then "Baja" else "Alta")]⟩,
      ?_, rfl, rfl⟩
    unfold generate_spending_predictions
    rw [if_neg hne]
    exact List.mem_filterMap.mpr ⟨g, hg, by rw [prediction_of, if_pos h3]⟩

/-- C8 witness for the amended statement, on `c8txs`. -/
theorem spending_predictions_shape_witness :
    ∃ p, p ∈ generate_spending_predictions Rat.sqrt c8txs ("1month") ∧
      p.predicted = round2 (listMean c8amounts) ∧
      p.confidence = round2 (pred_confidence Rat.sqrt c8amounts) :=
  (spending_predictions_shape Rat.sqrt c8txs ("1month")).2.2.2.2
    ("Food", c8amounts)
    (by rw [category_data_c8txs]; simp)
    (by norm_num [c8amounts])
    (by simp [c8txs])

end FinTrack
